import Mathlib

/-!
Verification model of the ska-csp-simulators asynchronous command engine.

The definitions below are a shallow embedding of the Python sources:

* `src/ska-csp-simulators/common/command_tracker.py` (`CommandTracker`),
* `src/ska_csp_simulators/common/base_simulator_device.py`
  (`BaseSimulatorDevice._simulate_task_execution`, `_update_commands_in_queue`, `do`),
* `src/ska_csp_simulators/common/obs_simulator.py`
  (`ObsSimulatorDevice._simulate_task_execution`, the `is_<Command>_allowed` guards),
* `src/ska_csp_simulators/common/subarray_simulator.py` and the mid/low device
  variants (further `is_<Command>_allowed` guards).

Modelling conventions:

* Python exceptions become `Except`: a raised exception is `Except.error`.
  A callback (subscriber) is a function returning `Except ε Unit`; a raising
  callback returns `Except.error e`.  `CommandTracker.update_command_info`
  contains no `try`/`except`, so in the model a callback error propagates
  through the monadic bind exactly as the Python exception propagates.
* The tracker's `dict` (insertion ordered, unique keys) becomes an association
  list with Python `dict` assignment/deletion semantics (`dictSet`, `dictDel`).
* Completion hooks are represented by an opaque payload type `η`; the
  environment `Callbacks` says how to run a hook.  Observable behaviour of a
  tracker call is its returned state plus the ordered trace of callback
  invocations (`TrackerEvent`).
* `threading.Timer`-based removal is modelled by the `scheduleRemoval` trace
  event carrying the delay, plus `remove_command`, the timer body.
* Wall-clock sleeping is modelled by accumulating slept durations (`ℚ`); the
  polling loop of the observation device is discretised by a fuel argument,
  one unit per 0.1 s poll iteration that fits in `time_to_complete`.
-/

/-- TaskStatus values of `ska_control_model.TaskStatus` as used by the sources. -/
inductive TaskStatus : Type where
  | STAGING
  | QUEUED
  | IN_PROGRESS
  | ABORTED
  | NOT_FOUND
  | COMPLETED
  | FAILED
  | NOT_ALLOWED
  | REJECTED
deriving DecidableEq, Fintype

/-- ObsState values of `ska_control_model.ObsState`. -/
inductive ObsState : Type where
  | EMPTY
  | RESOURCING
  | IDLE
  | CONFIGURING
  | READY
  | SCANNING
  | ABORTING
  | ABORTED
  | FAULT
  | RESETTING
  | RESTARTING
deriving DecidableEq, Fintype

/-- ResultCode values of `ska_control_model.ResultCode`. -/
inductive ResultCode : Type where
  | OK
  | STARTED
  | QUEUED
  | FAILED
  | UNKNOWN
  | REJECTED
  | NOT_ALLOWED
  | ABORTED
deriving DecidableEq, Fintype

/-- Tango device states; the sources use `ON`, `OFF`, `UNKNOWN` and `DISABLE`,
the remaining constructors stand for the other members of `tango.DevState`. -/
inductive DevState : Type where
  | ON
  | OFF
  | UNKNOWN
  | DISABLE
  | INIT
  | STANDBY
  | FAULT
deriving DecidableEq, Fintype

/-- Decidable equality for `Except`, needed to `decide` facts about guard results. -/
instance exceptDecidableEq {ε α : Type} [DecidableEq ε] [DecidableEq α] :
    DecidableEq (Except ε α) :=
  fun a b =>
    match a, b with
    | Except.ok x, Except.ok y => decidable_of_iff (x = y) (by simp)
    | Except.error x, Except.error y => decidable_of_iff (x = y) (by simp)
    | Except.ok _, Except.error _ => isFalse (by simp)
    | Except.error _, Except.ok _ => isFalse (by simp)

/-- Python `dict` lookup `l[k]` as an option (the sources guard raising accesses
separately). -/
def dictGet {α : Type} (l : List (String × α)) (k : String) : Option α :=
  match l with
  | [] => none
  | (k1, v) :: rest => if k1 = k then some v else dictGet rest k

/-- Python `dict` assignment `l[k] = v`: replaces in place (keeping insertion
order) when the key exists, appends otherwise. -/
def dictSet {α : Type} (l : List (String × α)) (k : String) (v : α) :
    List (String × α) :=
  match l with
  | [] => [(k, v)]
  | (k1, v1) :: rest => if k1 = k then (k, v) :: rest else (k1, v1) :: dictSet rest k v

/-- Python `del l[k]` on a dict with unique keys: drops the first binding of `k`. -/
def dictDel {α : Type} (l : List (String × α)) (k : String) : List (String × α) :=
  match l with
  | [] => []
  | (k1, v1) :: rest => if k1 = k then rest else (k1, v1) :: dictDel rest k

/-- One record of `CommandTracker._commands` (`_CommandData` in the source):
name, status, optional progress and the optional completion hook, the latter
represented by an opaque payload of type `η`. -/
structure CommandData (η : Type) : Type where
  name : String
  status : TaskStatus
  progress : Option Int
  completed_callback : Option η
deriving DecidableEq

/-- Errors a tracker operation can raise: `keyError` is the Python `KeyError`
of an out-of-bounds dict access, `callbackErr` wraps an exception raised by a
subscriber callback or completion hook and left uncaught by the tracker. -/
inductive TrackerErr (ε : Type) : Type where
  | keyError (id : String)
  | callbackErr (e : ε)
deriving DecidableEq

/-- Trace of the callback invocations performed by a tracker operation, in
invocation order, mirroring the arguments the source passes to each callback.
`scheduleRemoval` records the `threading.Timer(removal_time, remove)` start. -/
inductive TrackerEvent (η : Type) : Type where
  | queueChanged (queue : List (String × String))
  | statusChanged (statuses : List (String × TaskStatus))
  | progressChanged (progresses : List (String × Int))
  | resultCb (id : String) (result : ResultCode × String)
  | exceptionCb (id : String) (exc : String)
  | completedHook (id : String) (hook : η)
  | scheduleRemoval (id : String) (delay : ℚ)
deriving DecidableEq

/-- Classification of trace events, used to state ordering properties. -/
inductive EventKind : Type where
  | queueK
  | statusK
  | progressK
  | resultK
  | exceptionK
  | hookK
  | removalK
deriving DecidableEq

/-- Kind of a trace event. -/
def eventKind {η : Type} : TrackerEvent η → EventKind
  | TrackerEvent.queueChanged _ => EventKind.queueK
  | TrackerEvent.statusChanged _ => EventKind.statusK
  | TrackerEvent.progressChanged _ => EventKind.progressK
  | TrackerEvent.resultCb _ _ => EventKind.resultK
  | TrackerEvent.exceptionCb _ _ => EventKind.exceptionK
  | TrackerEvent.completedHook _ _ => EventKind.hookK
  | TrackerEvent.scheduleRemoval _ _ => EventKind.removalK

/-- The subscriber callbacks handed to `CommandTracker.__init__`, plus the
interpretation of completion-hook payloads.  Each callback may raise (`ε`);
the exception callback is optional exactly as in the source. -/
structure Callbacks (ε η : Type) : Type where
  queue_changed : List (String × String) → Except ε Unit
  status_changed : List (String × TaskStatus) → Except ε Unit
  progress_changed : List (String × Int) → Except ε Unit
  result : String → ResultCode × String → Except ε Unit
  exception : Option (String → String → Except ε Unit)
  run_completed : η → Except ε Unit

/-- State of a `CommandTracker` instance. -/
structure TrackerState (η : Type) : Type where
  commands : List (String × CommandData η)
  most_recent_result : Option (String × (ResultCode × String))
  most_recent_exception : Option (String × String)
  removal_time : ℚ
deriving DecidableEq

/-- Default of the `removal_time` argument of `CommandTracker.__init__`. -/
def default_removal_time : ℚ := 10

/-- Tracker state produced by `CommandTracker.__init__` with the default
`removal_time`. -/
def initTracker (η : Type) : TrackerState η :=
  { commands := []
    most_recent_result := none
    most_recent_exception := none
    removal_time := default_removal_time }

/-- Property `commands_in_queue`: `(id, name)` pairs in insertion order.  The
source filters on `command["name"] is not None`, which never rejects an entry
because `new_command` always stores a string name. -/
def commands_in_queue {η : Type} (st : TrackerState η) : List (String × String) :=
  st.commands.map (fun p => (p.1, p.2.name))

/-- Property `command_statuses`: `(id, status)` pairs in insertion order (the
source filter on a non-`None` status never rejects an entry). -/
def command_statuses {η : Type} (st : TrackerState η) :
    List (String × TaskStatus) :=
  st.commands.map (fun p => (p.1, p.2.status))

/-- Property `command_progresses`: `(id, progress)` pairs restricted to
commands that currently have a progress value. -/
def command_progresses {η : Type} (st : TrackerState η) : List (String × Int) :=
  st.commands.filterMap (fun p => (p.2.progress).map (fun v => (p.1, v)))

/-- Method `get_command_status`: status of a registered command, or the
`NOT_FOUND` sentinel for an unknown id; never raises. -/
def get_command_status {η : Type} (st : TrackerState η) (command_id : String) :
    TaskStatus :=
  match dictGet st.commands command_id with
  | some data => data.status
  | none => TaskStatus.NOT_FOUND

/-- Terminal statuses, in the order the source lists them in
`update_command_info`. -/
def terminalStatuses : List TaskStatus :=
  [TaskStatus.ABORTED, TaskStatus.COMPLETED, TaskStatus.FAILED, TaskStatus.REJECTED]

/-- Block `if exception is not None:` of `update_command_info`: record the
most recent exception and invoke the exception callback when one is
registered.  No `try`/`except` surrounds the invocation in the source, so a
callback error short-circuits the whole update. -/
def exception_phase {ε η : Type} (cbs : Callbacks ε η) (command_id : String)
    (exception : Option String)
    (acc : TrackerState η × List (TrackerEvent η)) :
    Except (TrackerErr ε) (TrackerState η × List (TrackerEvent η)) :=
  match exception with
  | none => Except.ok acc
  | some exc =>
    let st := { acc.1 with most_recent_exception := some (command_id, exc) }
    match cbs.exception with
    | none => Except.ok (st, acc.2)
    | some cb =>
      match cb command_id exc with
      | Except.ok _ =>
        Except.ok (st, acc.2 ++ [TrackerEvent.exceptionCb command_id exc])
      | Except.error e => Except.error (TrackerErr.callbackErr e)

/-- Block `if result is not None:` of `update_command_info`. -/
def result_phase {ε η : Type} (cbs : Callbacks ε η) (command_id : String)
    (result : Option (ResultCode × String))
    (acc : TrackerState η × List (TrackerEvent η)) :
    Except (TrackerErr ε) (TrackerState η × List (TrackerEvent η)) :=
  match result with
  | none => Except.ok acc
  | some r =>
    let st := { acc.1 with most_recent_result := some (command_id, r) }
    match cbs.result command_id r with
    | Except.ok _ =>
      Except.ok (st, acc.2 ++ [TrackerEvent.resultCb command_id r])
    | Except.error e => Except.error (TrackerErr.callbackErr e)

/-- Block `if progress is not None:` of `update_command_info`: the dict access
`self._commands[command_id]` raises `KeyError` for an unknown id; otherwise
the progress value is stored and the progress callback receives the full
current snapshot. -/
def progress_phase {ε η : Type} (cbs : Callbacks ε η) (command_id : String)
    (progress : Option Int)
    (acc : TrackerState η × List (TrackerEvent η)) :
    Except (TrackerErr ε) (TrackerState η × List (TrackerEvent η)) :=
  match progress with
  | none => Except.ok acc
  | some p =>
    match dictGet acc.1.commands command_id with
    | none => Except.error (TrackerErr.keyError command_id)
    | some data =>
      let st := { acc.1 with
        commands := dictSet acc.1.commands command_id { data with progress := some p } }
      match cbs.progress_changed (command_progresses st) with
      | Except.ok _ =>
        Except.ok (st, acc.2 ++ [TrackerEvent.progressChanged (command_progresses st)])
      | Except.error e => Except.error (TrackerErr.callbackErr e)

/-- Block `if status is not None:` of `update_command_info`: store the status,
invoke the status callback with the full snapshot, on `COMPLETED` invoke the
record's completion hook (again with no `try`/`except` in the source), and on
any terminal status clear the record's progress and start the removal timer. -/
def status_phase {ε η : Type} (cbs : Callbacks ε η) (command_id : String)
    (status : Option TaskStatus)
    (acc : TrackerState η × List (TrackerEvent η)) :
    Except (TrackerErr ε) (TrackerState η × List (TrackerEvent η)) :=
  match status with
  | none => Except.ok acc
  | some s =>
    match dictGet acc.1.commands command_id with
    | none => Except.error (TrackerErr.keyError command_id)
    | some data =>
      let st1 := { acc.1 with
        commands := dictSet acc.1.commands command_id { data with status := s } }
      let tr1 := acc.2 ++ [TrackerEvent.statusChanged (command_statuses st1)]
      match cbs.status_changed (command_statuses st1) with
      | Except.error e => Except.error (TrackerErr.callbackErr e)
      | Except.ok _ =>
        let hookStep : Except (TrackerErr ε) (List (TrackerEvent η)) :=
          if s = TaskStatus.COMPLETED then
            match dictGet st1.commands command_id with
            | none => Except.error (TrackerErr.keyError command_id)
            | some d =>
              match d.completed_callback with
              | none => Except.ok tr1
              | some hook =>
                match cbs.run_completed hook with
                | Except.ok _ =>
                  Except.ok (tr1 ++ [TrackerEvent.completedHook command_id hook])
                | Except.error e => Except.error (TrackerErr.callbackErr e)
          else Except.ok tr1
        hookStep.bind (fun tr2 =>
          if s ∈ terminalStatuses then
            match dictGet st1.commands command_id with
            | none => Except.error (TrackerErr.keyError command_id)
            | some d2 =>
              Except.ok
                ({ st1 with
                    commands := dictSet st1.commands command_id { d2 with progress := none } },
                  tr2 ++ [TrackerEvent.scheduleRemoval command_id st1.removal_time])
          else Except.ok (st1, tr2))

/-- Method `update_command_info`: the four field blocks applied in source
order (exception, result, progress, status) under the tracker lock.  Returns
the new tracker state and the ordered callback-invocation trace, or the first
error raised (`KeyError` or an uncaught callback exception). -/
def update_command_info {ε η : Type} (cbs : Callbacks ε η) (st0 : TrackerState η)
    (command_id : String) (status : Option TaskStatus) (progress : Option Int)
    (result : Option (ResultCode × String)) (exception : Option String) :
    Except (TrackerErr ε) (TrackerState η × List (TrackerEvent η)) :=
  (exception_phase cbs command_id exception (st0, [])).bind (fun acc1 =>
    (result_phase cbs command_id result acc1).bind (fun acc2 =>
      (progress_phase cbs command_id progress acc2).bind (fun acc3 =>
        status_phase cbs command_id status acc3)))

/-- Method `new_command`: insert a fresh record with status `STAGING` and fire
the queue-changed callback with the full queue.  The source generates the id
from wall-clock time, a uuid and the name; that external entropy is modelled
by taking the generated id as a parameter. -/
def new_command {ε η : Type} (cbs : Callbacks ε η) (st0 : TrackerState η)
    (command_id : String) (command_name : String) (completed_callback : Option η) :
    Except (TrackerErr ε) (TrackerState η × List (TrackerEvent η)) :=
  let st := { st0 with
    commands := dictSet st0.commands command_id
      { name := command_name
        status := TaskStatus.STAGING
        progress := none
        completed_callback := completed_callback } }
  match cbs.queue_changed (commands_in_queue st) with
  | Except.ok _ =>
    Except.ok (st, [TrackerEvent.queueChanged (commands_in_queue st)])
  | Except.error e => Except.error (TrackerErr.callbackErr e)

/-- Body of the timer started by `_schedule_removal`: `del` the record (a
`KeyError` for an already-absent id, as in Python) and fire the queue-changed
callback. -/
def remove_command {ε η : Type} (cbs : Callbacks ε η) (st0 : TrackerState η)
    (command_id : String) :
    Except (TrackerErr ε) (TrackerState η × List (TrackerEvent η)) :=
  match dictGet st0.commands command_id with
  | none => Except.error (TrackerErr.keyError command_id)
  | some _ =>
    let st := { st0 with commands := dictDel st0.commands command_id }
    match cbs.queue_changed (commands_in_queue st) with
    | Except.ok _ =>
      Except.ok (st, [TrackerEvent.queueChanged (commands_in_queue st)])
    | Except.error e => Except.error (TrackerErr.callbackErr e)

/-- Callback emitted by a simulated task of `BaseSimulatorDevice`: either a
status report or a progress report (the source passes the checkpoint strings
of `PROGRESS_REPORTING_POINTS` as the progress argument). -/
inductive TaskEvent : Type where
  | statusReport (s : TaskStatus)
  | progressReport (p : String)
deriving DecidableEq

/-- Class attribute `BaseSimulatorDevice.PROGRESS_REPORTING_POINTS`. -/
def PROGRESS_REPORTING_POINTS : List String := ["33", "66"]

/-- Loop `for progress_point in self.PROGRESS_REPORTING_POINTS:` of
`BaseSimulatorDevice._simulate_task_execution`, followed by the final sleep,
abort check and `COMPLETED` report.  `abortCheck k` is the value the k-th
check of `task_abort_event.is_set()` observes; the second component is the
total time slept.  Each iteration sleeps `sleep_time`, then checks the abort
event (reporting `ABORTED` and stopping if set), then reports the checkpoint. -/
def fixed_task_loop (abortCheck : ℕ → Bool) (sleep_time : ℚ) :
    ℕ → List String → List TaskEvent × ℚ
  | k, [] =>
    if abortCheck k then ([TaskEvent.statusReport TaskStatus.ABORTED], sleep_time)
    else ([TaskEvent.statusReport TaskStatus.COMPLETED], sleep_time)
  | k, point :: rest =>
    if abortCheck k then ([TaskEvent.statusReport TaskStatus.ABORTED], sleep_time)
    else
      let tail := fixed_task_loop abortCheck sleep_time (k + 1) rest
      (TaskEvent.progressReport point :: tail.1, sleep_time + tail.2)

/-- Worker body of `BaseSimulatorDevice._simulate_task_execution` (the
fixed-duration task): report `IN_PROGRESS`, check abort once, then run the
checkpoint loop with `sleep_time = time_to_complete / (len(points) + 1)`.
Returns the callback trace and the total slept time. -/
def simulate_task_execution_base (points : List String) (time_to_complete : ℚ)
    (abortCheck : ℕ → Bool) : List TaskEvent × ℚ :=
  if abortCheck 0 then
    ([TaskEvent.statusReport TaskStatus.IN_PROGRESS,
      TaskEvent.statusReport TaskStatus.ABORTED], 0)
  else
    let sleep_time := time_to_complete / ((points.length : ℚ) + 1)
    let rest := fixed_task_loop abortCheck sleep_time 1 points
    (TaskEvent.statusReport TaskStatus.IN_PROGRESS :: rest.1, rest.2)

/-- Fault-injection flags read by the polling worker of
`ObsSimulatorDevice._simulate_task_execution`: the `obsFaulty` attribute and
the one-shot `_faulty_in_command` flag (referenced by the source and cleared
with `self._faulty_in_command = 0`). -/
structure ObsFlags : Type where
  obs_faulty : Bool
  faulty_in_command : Bool
deriving DecidableEq

/-- Callback emitted by the polling worker: a task-callback report carrying a
status and an optional result code, or a `update_obs_state` write. -/
inductive ObsEvent : Type where
  | report (s : TaskStatus) (result : Option ResultCode)
  | obsStateSet (o : ObsState)
deriving DecidableEq

/-- Polling loop `while (time.time() - start_time) < self._time_to_complete:`
of `ObsSimulatorDevice._simulate_task_execution`.  `fuel` is the number of
poll iterations that still fit in `time_to_complete` (one per 0.1 s sleep);
`endSig k` and `abortSig k` are the values of `_endscan_event.is_set()` and
`task_abort_event.is_set()` at iteration `k`.  Iteration order matches the
source: end signal, then abort signal, then fault flags, then sleep.  Returns
the emitted events and the final flag state. -/
def obs_poll_loop (endSig abortSig : ℕ → Bool) :
    ObsFlags → ℕ → ℕ → List ObsEvent × ObsFlags
  | flags, _, 0 => ([ObsEvent.report TaskStatus.COMPLETED none], flags)
  | flags, k, fuel + 1 =>
    if endSig k then ([ObsEvent.report TaskStatus.COMPLETED none], flags)
    else if abortSig k then
      ([ObsEvent.report TaskStatus.ABORTED none, ObsEvent.obsStateSet ObsState.ABORTED],
        flags)
    else if flags.obs_faulty || flags.faulty_in_command then
      ([ObsEvent.report TaskStatus.COMPLETED (some ResultCode.FAILED)],
        if flags.faulty_in_command then { flags with faulty_in_command := false }
        else flags)
    else obs_poll_loop endSig abortSig flags (k + 1) fuel

/-- Worker body of `ObsSimulatorDevice._simulate_task_execution` (the polling
task): report `IN_PROGRESS`, then run the polling loop. -/
def simulate_task_execution_obs (endSig abortSig : ℕ → Bool) (flags : ObsFlags)
    (fuel : ℕ) : List ObsEvent × ObsFlags :=
  let rest := obs_poll_loop endSig abortSig flags 0 fuel
  (ObsEvent.report TaskStatus.IN_PROGRESS none :: rest.1, rest.2)

/-- Payload of the `ValueError` raised by an `is_<Command>_allowed` guard: the
source message interpolates exactly the command name, the current observation
state and the current device state
(`"<name> command not permitted in observation state {obs} or state {state}"`). -/
structure LegalityError : Type where
  command : String
  obs_state : ObsState
  dev_state : DevState
deriving DecidableEq

/-- Guard `ObsSimulatorDevice.is_Configure_allowed`. -/
def is_Configure_allowed (obs : ObsState) (dev : DevState) :
    Except LegalityError Bool :=
  if obs ∉ [ObsState.IDLE, ObsState.READY] ∨ dev ≠ DevState.ON then
    Except.error { command := "Configure", obs_state := obs, dev_state := dev }
  else Except.ok true

/-- Guard `ObsSimulatorDevice.is_Scan_allowed`. -/
def is_Scan_allowed (obs : ObsState) (dev : DevState) :
    Except LegalityError Bool :=
  if obs ≠ ObsState.READY ∨ dev ≠ DevState.ON then
    Except.error { command := "Scan", obs_state := obs, dev_state := dev }
  else Except.ok true

/-- Guard `ObsSimulatorDevice.is_EndScan_allowed`. -/
def is_EndScan_allowed (obs : ObsState) (dev : DevState) :
    Except LegalityError Bool :=
  if obs ≠ ObsState.SCANNING ∨ dev ≠ DevState.ON then
    Except.error { command := "EndScan", obs_state := obs, dev_state := dev }
  else Except.ok true

/-- Guard `ObsSimulatorDevice.is_GoToIdle_allowed`. -/
def is_GoToIdle_allowed (obs : ObsState) (dev : DevState) :
    Except LegalityError Bool :=
  if obs ≠ ObsState.READY ∨ dev ≠ DevState.ON then
    Except.error { command := "GoToIdle", obs_state := obs, dev_state := dev }
  else Except.ok true

/-- Guard `ObsSimulatorDevice.is_ObsReset_allowed`; the source message spells
the command name "ObsREset". -/
def is_ObsReset_allowed (obs : ObsState) (dev : DevState) :
    Except LegalityError Bool :=
  if obs ∉ [ObsState.FAULT, ObsState.ABORTED] ∨ dev ≠ DevState.ON then
    Except.error { command := "ObsREset", obs_state := obs, dev_state := dev }
  else Except.ok true

/-- Guard `ObsSimulatorDevice.is_Abort_allowed`. -/
def is_Abort_allowed (obs : ObsState) (dev : DevState) :
    Except LegalityError Bool :=
  if obs ∉ [ObsState.RESOURCING, ObsState.IDLE, ObsState.CONFIGURING,
      ObsState.READY, ObsState.SCANNING, ObsState.RESETTING] ∨ dev ≠ DevState.ON then
    Except.error { command := "Abort", obs_state := obs, dev_state := dev }
  else Except.ok true

/-- Guard `SubarraySimulatorDevice.is_AssignResources_allowed`. -/
def is_AssignResources_allowed (obs : ObsState) (dev : DevState) :
    Except LegalityError Bool :=
  if obs ∉ [ObsState.EMPTY, ObsState.IDLE] ∨ dev ≠ DevState.ON then
    Except.error { command := "AssignResources", obs_state := obs, dev_state := dev }
  else Except.ok true

/-- Guard `SubarraySimulatorDevice.is_ReleaseAllResources_allowed`. -/
def is_ReleaseAllResources_allowed (obs : ObsState) (dev : DevState) :
    Except LegalityError Bool :=
  if obs ≠ ObsState.IDLE ∨ dev ≠ DevState.ON then
    Except.error { command := "ReleaseAllResources", obs_state := obs, dev_state := dev }
  else Except.ok true

/-- Guard `SubarraySimulatorDevice.is_Restart_allowed`. -/
def is_Restart_allowed (obs : ObsState) (dev : DevState) :
    Except LegalityError Bool :=
  if obs ∉ [ObsState.FAULT, ObsState.ABORTED] ∨ dev ≠ DevState.ON then
    Except.error { command := "Restart", obs_state := obs, dev_state := dev }
  else Except.ok true

/-- Guard `is_ConfigureScan_allowed` (identical in the PST beam, Mid CBF and
Mid PSS subarray simulators). -/
def is_ConfigureScan_allowed (obs : ObsState) (dev : DevState) :
    Except LegalityError Bool :=
  if obs ∉ [ObsState.IDLE, ObsState.READY] ∨ dev ≠ DevState.ON then
    Except.error { command := "ConfigureScan", obs_state := obs, dev_state := dev }
  else Except.ok true

/-- Guard `MidCbfSubarraySimulator.is_AddReceptors_allowed`. -/
def is_AddReceptors_allowed (obs : ObsState) (dev : DevState) :
    Except LegalityError Bool :=
  if obs ∉ [ObsState.EMPTY, ObsState.IDLE] ∨ dev ≠ DevState.ON then
    Except.error { command := "AddReceptors", obs_state := obs, dev_state := dev }
  else Except.ok true

/-- Guard `MidCbfSubarraySimulator.is_RemoveAllReceptors_allowed`. -/
def is_RemoveAllReceptors_allowed (obs : ObsState) (dev : DevState) :
    Except LegalityError Bool :=
  if obs ≠ ObsState.IDLE ∨ dev ≠ DevState.ON then
    Except.error { command := "RemoveAllReceptors", obs_state := obs, dev_state := dev }
  else Except.ok true

/-- Guard `LowCbfSubarraySimulator.is_End_allowed`. -/
def is_End_allowed (obs : ObsState) (dev : DevState) :
    Except LegalityError Bool :=
  if obs ≠ ObsState.READY ∨ dev ≠ DevState.ON then
    Except.error { command := "End", obs_state := obs, dev_state := dev }
  else Except.ok true

/-- Scan duration constant `SCAN_TIME` of `obs_simulator.py` (seconds). -/
def SCAN_TIME : ℚ := 30

/-- Modelled from the spec: `check_raise_exception` is called by the command
bodies but defined nowhere under `src/`; the spec lists an exception-injection
flag settable by the facade among the configuration knobs.  It raises exactly
when that flag is set. -/
def check_raise_exception (raise_exception_flag : Bool) : Except String Unit :=
  if raise_exception_flag then Except.error "exception injected" else Except.ok ()

/-- Device-level state relevant to command invocation: observation state,
Tango device state, the owned command tracker, the `timeToComplete` knob and
the spec-modelled exception-injection flag.  Completion-hook payloads are the
hook names (`String`). -/
structure DeviceModel : Type where
  obs_state : ObsState
  dev_state : DevState
  tracker : TrackerState String
  time_to_complete : ℚ
  raise_exception_flag : Bool

/-- Error surfaced synchronously by a command invocation: a legality
`ValueError`, an injected exception, or an error propagating from the
tracker. -/
inductive DeviceErr (ε : Type) : Type where
  | legality (e : LegalityError)
  | injected (msg : String)
  | tracker (e : TrackerErr ε)
deriving DecidableEq

/-- Method `BaseSimulatorDevice.do`: register the command with the tracker
(storing the completion hook), dispatch the simulated task asynchronously
(its trace is modelled by the `simulate_task_execution_*` functions) and
return `(ResultCode.QUEUED, command_id)` immediately. -/
def do_command {ε : Type} (cbs : Callbacks ε String) (d : DeviceModel)
    (command_name command_id : String) (completed : Option String) :
    DeviceModel × Except (DeviceErr ε) (ResultCode × String) :=
  match new_command cbs d.tracker command_id command_name completed with
  | Except.error e => (d, Except.error (DeviceErr.tracker e))
  | Except.ok (t1, _) =>
    ({ d with tracker := t1 }, Except.ok (ResultCode.QUEUED, command_id))

/-- Modelled from the spec: the device framework calls `is_Scan_allowed`
before running the `Scan` command body; on refusal the `ValueError` is
surfaced synchronously and the body never runs.  The body follows the source:
set `_time_to_complete = SCAN_TIME`, run `check_raise_exception`, move the
observation state to `SCANNING` and dispatch through `do` (JSON argument
parsing is an external concern per the spec and is not modelled). -/
def Scan_invoke {ε : Type} (cbs : Callbacks ε String) (d : DeviceModel)
    (command_id : String) :
    DeviceModel × Except (DeviceErr ε) (ResultCode × String) :=
  match is_Scan_allowed d.obs_state d.dev_state with
  | Except.error e => (d, Except.error (DeviceErr.legality e))
  | Except.ok _ =>
    let d1 := { d with time_to_complete := SCAN_TIME }
    match check_raise_exception d1.raise_exception_flag with
    | Except.error m => (d1, Except.error (DeviceErr.injected m))
    | Except.ok _ =>
      let d2 := { d1 with obs_state := ObsState.SCANNING }
      do_command cbs d2 "scan" command_id (some "scan_completed")

/-- Modelled from the spec: the device framework calls
`is_AssignResources_allowed` before running the `AssignResources` body; on
refusal the `ValueError` is surfaced synchronously and the body never runs.
The body follows the source: `check_raise_exception`, move the observation
state to `RESOURCING`, dispatch through `do`. -/
def AssignResources_invoke {ε : Type} (cbs : Callbacks ε String) (d : DeviceModel)
    (command_id : String) :
    DeviceModel × Except (DeviceErr ε) (ResultCode × String) :=
  match is_AssignResources_allowed d.obs_state d.dev_state with
  | Except.error e => (d, Except.error (DeviceErr.legality e))
  | Except.ok _ =>
    match check_raise_exception d.raise_exception_flag with
    | Except.error m => (d, Except.error (DeviceErr.injected m))
    | Except.ok _ =>
      let d2 := { d with obs_state := ObsState.RESOURCING }
      do_command cbs d2 "assign" command_id (some "assign_completed")

/-- Queue-related attribute fields of `BaseSimulatorDevice` initialised by
`init_device`, plus the misspelled `_commds_in_queue` attribute that
`_update_commands_in_queue` creates on its first non-empty call (absent, i.e.
`none`, until then). -/
structure BaseQueueAttrs : Type where
  command_ids_in_queue : List String
  commands_in_queue_attr : List String
  commds_in_queue : Option (List String)
deriving DecidableEq

/-- Queue attribute state after `BaseSimulatorDevice.init_device`. -/
def initQueueAttrs : BaseQueueAttrs :=
  { command_ids_in_queue := []
    commands_in_queue_attr := []
    commds_in_queue := none }

/-- Events pushed through `push_change_event` (attribute name and value). -/
inductive PushEvent : Type where
  | push (attr : String) (value : List String)
deriving DecidableEq

/-- Handler `BaseSimulatorDevice._update_commands_in_queue`: on a non-empty
queue it unzips ids and names, storing the ids in `_command_ids_in_queue` but
the names into the misspelled `_commds_in_queue`; on an empty queue it resets
both correctly spelled fields.  It then pushes change events for
`longRunningCommandsInQueue` (always from the correctly spelled, never
updated on the non-empty path, `_commands_in_queue`) and
`longRunningCommandIDsInQueue`. -/
def update_commands_in_queue (st : BaseQueueAttrs)
    (commands_in_q : List (String × String)) : BaseQueueAttrs × List PushEvent :=
  let st1 :=
    if commands_in_q.isEmpty then
      { st with command_ids_in_queue := [], commands_in_queue_attr := [] }
    else
      { st with
        command_ids_in_queue := commands_in_q.map (fun p => p.1)
        commds_in_queue := some (commands_in_q.map (fun p => p.2)) }
  (st1,
    [PushEvent.push "longRunningCommandsInQueue" st1.commands_in_queue_attr,
      PushEvent.push "longRunningCommandIDsInQueue" st1.command_ids_in_queue])

/-- Attribute read method `longRunningCommandsInQueue`. -/
def longRunningCommandsInQueue_read (st : BaseQueueAttrs) : List String :=
  st.commands_in_queue_attr

/-- Fold of successive queue-changed notifications through the handler. -/
def apply_queue_updates (st : BaseQueueAttrs)
    (qs : List (List (String × String))) : BaseQueueAttrs :=
  qs.foldl (fun s q => (update_commands_in_queue s q).1) st

/-- Callback environment whose subscribers always succeed; exceptions are
`Unit`, hook payloads are `Unit`. -/
def pureCbs : Callbacks Unit Unit :=
  { queue_changed := fun _ => Except.ok ()
    status_changed := fun _ => Except.ok ()
    progress_changed := fun _ => Except.ok ()
    result := fun _ _ => Except.ok ()
    exception := some (fun _ _ => Except.ok ())
    run_completed := fun _ => Except.ok () }

/-- Callback environment whose status subscriber raises `"boom"`; used to
exhibit that `update_command_info` propagates subscriber exceptions. -/
def raisingStatusCbs : Callbacks String Unit :=
  { queue_changed := fun _ => Except.ok ()
    status_changed := fun _ => Except.error "boom"
    progress_changed := fun _ => Except.ok ()
    result := fun _ _ => Except.ok ()
    exception := some (fun _ _ => Except.ok ())
    run_completed := fun _ => Except.ok () }

/-- Tracker state holding one registered command `"cmd1"` named `"scan"` with
status `STAGING`, no progress and a completion hook. -/
def oneCmdTracker : TrackerState Unit :=
  { commands :=
      [("cmd1",
        { name := "scan"
          status := TaskStatus.STAGING
          progress := none
          completed_callback := some () })]
    most_recent_result := none
    most_recent_exception := none
    removal_time := default_removal_time }

/-- Callback environment (hook payloads are hook names) whose subscribers all
succeed; used for the device-dispatch model. -/
def pureCbsS : Callbacks Unit String :=
  { queue_changed := fun _ => Except.ok ()
    status_changed := fun _ => Except.ok ()
    progress_changed := fun _ => Except.ok ()
    result := fun _ _ => Except.ok ()
    exception := some (fun _ _ => Except.ok ())
    run_completed := fun _ => Except.ok () }

/-- Callback environment in which every subscriber and the hook runner raise. -/
def raisingAllCbs : Callbacks String Unit :=
  { queue_changed := fun _ => Except.error "boom"
    status_changed := fun _ => Except.error "boom"
    progress_changed := fun _ => Except.error "boom"
    result := fun _ _ => Except.error "boom"
    exception := some (fun _ _ => Except.error "boom")
    run_completed := fun _ => Except.error "boom" }

/-- Callback environment whose subscribers succeed but whose completion-hook
runner raises. -/
def raisingHookCbs : Callbacks String Unit :=
  { queue_changed := fun _ => Except.ok ()
    status_changed := fun _ => Except.ok ()
    progress_changed := fun _ => Except.ok ()
    result := fun _ _ => Except.ok ()
    exception := some (fun _ _ => Except.ok ())
    run_completed := fun _ => Except.error "hookboom" }

/-- Device-model state used to exercise the command dispatchers: device `ON`,
fresh tracker, no injected exception. -/
def sampleDevice (obs : ObsState) : DeviceModel :=
  { obs_state := obs
    dev_state := DevState.ON
    tracker := initTracker String
    time_to_complete := 2 / 5
    raise_exception_flag := false }

theorem dictGet_dictSet_self {α : Type} (l : List (String × α)) (k : String)
    (v : α) : dictGet (dictSet l k v) k = some v := by
  induction l with
  | nil => simp [dictGet, dictSet]
  | cons hd tl ih =>
    obtain ⟨k1, v1⟩ := hd
    by_cases hk : k1 = k
    · simp [dictSet, hk, dictGet]
    · simp [dictSet, hk, dictGet, ih]

theorem dictGet_eq_none_iff {α : Type} (l : List (String × α)) (k : String) :
    dictGet l k = none ↔ k ∉ l.map Prod.fst := by
  induction l with
  | nil => simp [dictGet]
  | cons hd tl ih =>
    obtain ⟨k1, v1⟩ := hd
    by_cases hk : k1 = k
    · simp [dictGet, hk]
    · simp [dictGet, hk, ih, Ne.symm hk]

theorem dictGet_dictDel_self {α : Type} (l : List (String × α)) (k : String)
    (hnd : (l.map Prod.fst).Nodup) : dictGet (dictDel l k) k = none := by
  induction l with
  | nil => simp [dictDel, dictGet]
  | cons hd tl ih =>
    obtain ⟨k1, v1⟩ := hd
    simp only [List.map_cons, List.nodup_cons] at hnd
    by_cases hk : k1 = k
    · subst hk
      simp only [dictDel, if_pos rfl]
      exact (dictGet_eq_none_iff tl k1).mpr hnd.1
    · simp [dictDel, hk, dictGet, ih hnd.2]

/-- C7: each legality guard returns `True` exactly when the observation state
is in the command's legal set and the device state is `ON`, and otherwise
raises a `ValueError` naming the command and the offending observation and
device states; in particular `Abort` is allowed exactly in `RESOURCING, IDLE,
CONFIGURING, READY, SCANNING, RESETTING` and `Configure` exactly in
`IDLE, READY`. -/
theorem legality_guard_characterization :
    ∀ (obs : ObsState) (dev : DevState),
      (is_Configure_allowed obs dev =
        if obs ∈ [ObsState.IDLE, ObsState.READY] ∧ dev = DevState.ON then Except.ok true
        else Except.error ⟨"Configure", obs, dev⟩) ∧
      (is_Scan_allowed obs dev =
        if obs ∈ [ObsState.READY] ∧ dev = DevState.ON then Except.ok true
        else Except.error ⟨"Scan", obs, dev⟩) ∧
      (is_EndScan_allowed obs dev =
        if obs ∈ [ObsState.SCANNING] ∧ dev = DevState.ON then Except.ok true
        else Except.error ⟨"EndScan", obs, dev⟩) ∧
      (is_GoToIdle_allowed obs dev =
        if obs ∈ [ObsState.READY] ∧ dev = DevState.ON then Except.ok true
        else Except.error ⟨"GoToIdle", obs, dev⟩) ∧
      (is_End_allowed obs dev =
        if obs ∈ [ObsState.READY] ∧ dev = DevState.ON then Except.ok true
        else Except.error ⟨"End", obs, dev⟩) ∧
      (is_ObsReset_allowed obs dev =
        if obs ∈ [ObsState.FAULT, ObsState.ABORTED] ∧ dev = DevState.ON then Except.ok true
        else Except.error ⟨"ObsREset", obs, dev⟩) ∧
      (is_Restart_allowed obs dev =
        if obs ∈ [ObsState.FAULT, ObsState.ABORTED] ∧ dev = DevState.ON then Except.ok true
        else Except.error ⟨"Restart", obs, dev⟩) ∧
      (is_Abort_allowed obs dev =
        if obs ∈ [ObsState.RESOURCING, ObsState.IDLE, ObsState.CONFIGURING,
            ObsState.READY, ObsState.SCANNING, ObsState.RESETTING] ∧ dev = DevState.ON
        then Except.ok true
        else Except.error ⟨"Abort", obs, dev⟩) ∧
      (is_AssignResources_allowed obs dev =
        if obs ∈ [ObsState.EMPTY, ObsState.IDLE] ∧ dev = DevState.ON then Except.ok true
        else Except.error ⟨"AssignResources", obs, dev⟩) ∧
      (is_ReleaseAllResources_allowed obs dev =
        if obs ∈ [ObsState.IDLE] ∧ dev = DevState.ON then Except.ok true
        else Except.error ⟨"ReleaseAllResources", obs, dev⟩) ∧
      (is_ConfigureScan_allowed obs dev =
        if obs ∈ [ObsState.IDLE, ObsState.READY] ∧ dev = DevState.ON then Except.ok true
        else Except.error ⟨"ConfigureScan", obs, dev⟩) ∧
      (is_AddReceptors_allowed obs dev =
        if obs ∈ [ObsState.EMPTY, ObsState.IDLE] ∧ dev = DevState.ON then Except.ok true
        else Except.error ⟨"AddReceptors", obs, dev⟩) ∧
      (is_RemoveAllReceptors_allowed obs dev =
        if obs ∈ [ObsState.IDLE] ∧ dev = DevState.ON then Except.ok true
        else Except.error ⟨"RemoveAllReceptors", obs, dev⟩) ∧
      (is_Abort_allowed obs dev = Except.ok true ↔
        obs ∈ [ObsState.RESOURCING, ObsState.IDLE, ObsState.CONFIGURING,
          ObsState.READY, ObsState.SCANNING, ObsState.RESETTING] ∧ dev = DevState.ON) ∧
      (is_Configure_allowed obs dev = Except.ok true ↔
        obs ∈ [ObsState.IDLE, ObsState.READY] ∧ dev = DevState.ON) := by
  decide

theorem update_commands_in_queue_preserves_empty (st : BaseQueueAttrs)
    (q : List (String × String)) (h : st.commands_in_queue_attr = []) :
    (update_commands_in_queue st q).1.commands_in_queue_attr = [] := by
  unfold update_commands_in_queue
  by_cases hq : q.isEmpty
  · simp [hq]
  · simp [hq, h]

theorem apply_queue_updates_preserves_empty (qs : List (List (String × String)))
    (st : BaseQueueAttrs) (h : st.commands_in_queue_attr = []) :
    (apply_queue_updates st qs).commands_in_queue_attr = [] := by
  induction qs generalizing st with
  | nil => simpa [apply_queue_updates]
  | cons q rest ih =>
    simp only [apply_queue_updates, List.foldl_cons]
    exact ih _ (update_commands_in_queue_preserves_empty st q h)

/-- C10: `_update_commands_in_queue` stores command names into the misspelled
`_commds_in_queue` attribute on every non-empty queue change, so starting
from `init_device` the `_commands_in_queue` list backing the
`longRunningCommandsInQueue` attribute and its change events stays the empty
list no matter which queue updates arrive, while
`longRunningCommandIDsInQueue` does reflect the actual queue ids. -/
theorem commands_in_queue_attribute_always_empty :
    (∀ qs : List (List (String × String)),
      (apply_queue_updates initQueueAttrs qs).commands_in_queue_attr = [] ∧
      longRunningCommandsInQueue_read (apply_queue_updates initQueueAttrs qs) = []) ∧
    (∀ (st : BaseQueueAttrs) (q : List (String × String)),
      st.commands_in_queue_attr = [] →
        (update_commands_in_queue st q).1.commands_in_queue_attr = [] ∧
        (update_commands_in_queue st q).2 =
          [PushEvent.push "longRunningCommandsInQueue" [],
            PushEvent.push "longRunningCommandIDsInQueue"
              (update_commands_in_queue st q).1.command_ids_in_queue]) ∧
    (∀ (st : BaseQueueAttrs) (q : List (String × String)), q ≠ [] →
      (update_commands_in_queue st q).1.command_ids_in_queue = q.map Prod.fst ∧
      (update_commands_in_queue st q).1.commds_in_queue = some (q.map Prod.snd)) := by
  refine ⟨?_, ?_, ?_⟩
  · intro qs
    have h := apply_queue_updates_preserves_empty qs initQueueAttrs rfl
    exact ⟨h, h⟩
  · intro st q h
    constructor
    · exact update_commands_in_queue_preserves_empty st q h
    · unfold update_commands_in_queue
      by_cases hq : q.isEmpty
      · simp [hq]
      · simp [hq, h]
  · intro st q hq
    have hq1 : q.isEmpty = false := by
      cases q with
      | nil => exact absurd rfl hq
      | cons a t => rfl
    unfold update_commands_in_queue
    simp [hq1]

/-- Witness for C10 at a concrete queue update. -/
theorem commands_in_queue_attribute_always_empty_witness :
    ((apply_queue_updates initQueueAttrs [[("id1", "on")]]).commands_in_queue_attr = [] ∧
      longRunningCommandsInQueue_read (apply_queue_updates initQueueAttrs [[("id1", "on")]]) = []) ∧
    ((update_commands_in_queue initQueueAttrs [("id1", "on")]).1.command_ids_in_queue =
        ["id1"] ∧
      (update_commands_in_queue initQueueAttrs [("id1", "on")]).1.commds_in_queue =
        some ["on"]) :=
  ⟨commands_in_queue_attribute_always_empty.1 [[("id1", "on")]],
    by
      have h := commands_in_queue_attribute_always_empty.2.2 initQueueAttrs
        [("id1", "on")] (by decide)
      simpa using h⟩

theorem fixed_task_loop_no_abort (abortCheck : ℕ → Bool) (sleep_time : ℚ)
    (h : ∀ k, abortCheck k = false) :
    ∀ (points : List String) (k : ℕ),
      fixed_task_loop abortCheck sleep_time k points =
        (points.map TaskEvent.progressReport ++
            [TaskEvent.statusReport TaskStatus.COMPLETED],
          ((points.length : ℚ) + 1) * sleep_time) := by
  intro points
  induction points with
  | nil => intro k; simp [fixed_task_loop, h]
  | cons point rest ih =>
    intro k
    simp only [fixed_task_loop, h, Bool.false_eq_true, if_false, ih (k + 1),
      List.map_cons, List.length_cons, List.cons_append]
    rw [Prod.mk.injEq]
    refine ⟨rfl, ?_⟩
    push_cast
    ring

/-- C5: with the abort signal never set, the fixed-duration worker produces
exactly status `IN_PROGRESS`, one progress report per configured checkpoint
in list order (default `"33"` then `"66"`), then status `COMPLETED`; the
total slept time is `len(checkpoints) + 1` equal segments of
`time_to_complete / (len(checkpoints) + 1)`, i.e. `time_to_complete`. -/
theorem fixed_task_nominal_sequence (points : List String)
    (time_to_complete : ℚ) (abortCheck : ℕ → Bool)
    (h : ∀ k, abortCheck k = false) :
    simulate_task_execution_base points time_to_complete abortCheck =
      (TaskEvent.statusReport TaskStatus.IN_PROGRESS ::
          (points.map TaskEvent.progressReport ++
            [TaskEvent.statusReport TaskStatus.COMPLETED]),
        ((points.length : ℚ) + 1) *
          (time_to_complete / ((points.length : ℚ) + 1))) ∧
    (simulate_task_execution_base points time_to_complete abortCheck).2 =
      time_to_complete ∧
    (simulate_task_execution_base PROGRESS_REPORTING_POINTS time_to_complete
        abortCheck).1 =
      [TaskEvent.statusReport TaskStatus.IN_PROGRESS,
        TaskEvent.progressReport "33", TaskEvent.progressReport "66",
        TaskEvent.statusReport TaskStatus.COMPLETED] := by
  have hmain : ∀ (ps : List String),
      simulate_task_execution_base ps time_to_complete abortCheck =
        (TaskEvent.statusReport TaskStatus.IN_PROGRESS ::
            (ps.map TaskEvent.progressReport ++
              [TaskEvent.statusReport TaskStatus.COMPLETED]),
          ((ps.length : ℚ) + 1) * (time_to_complete / ((ps.length : ℚ) + 1))) := by
    intro ps
    simp [simulate_task_execution_base, h, fixed_task_loop_no_abort abortCheck _ h ps 1]
  have hpos : ((points.length : ℚ) + 1) ≠ 0 := by positivity
  refine ⟨hmain points, ?_, ?_⟩
  · rw [hmain points]
    exact mul_div_cancel₀ time_to_complete hpos
  · rw [hmain PROGRESS_REPORTING_POINTS]
    rfl

/-- Witness for C5 with `time_to_complete = 0.4` and a never-set abort event. -/
theorem fixed_task_nominal_sequence_witness :
    simulate_task_execution_base PROGRESS_REPORTING_POINTS (2 / 5)
        (fun _ => false) =
      (TaskEvent.statusReport TaskStatus.IN_PROGRESS ::
          (PROGRESS_REPORTING_POINTS.map TaskEvent.progressReport ++
            [TaskEvent.statusReport TaskStatus.COMPLETED]),
        ((PROGRESS_REPORTING_POINTS.length : ℚ) + 1) *
          (2 / 5 / ((PROGRESS_REPORTING_POINTS.length : ℚ) + 1))) ∧
    (simulate_task_execution_base PROGRESS_REPORTING_POINTS (2 / 5)
        (fun _ => false)).2 = 2 / 5 ∧
    (simulate_task_execution_base PROGRESS_REPORTING_POINTS (2 / 5)
        (fun _ => false)).1 =
      [TaskEvent.statusReport TaskStatus.IN_PROGRESS,
        TaskEvent.progressReport "33", TaskEvent.progressReport "66",
        TaskEvent.statusReport TaskStatus.COMPLETED] :=
  fixed_task_nominal_sequence PROGRESS_REPORTING_POINTS (2 / 5)
    (fun _ => false) (fun _ => rfl)

/-- C6: the polling worker first reports `IN_PROGRESS`; every loop iteration
checks, in priority order, the end signal (report `COMPLETED`, return), then
the abort signal (report `ABORTED`, set the observation state to `ABORTED`,
return), then the fault flags (report `COMPLETED` with result `FAILED`,
clearing the one-shot `_faulty_in_command` flag when it was set, return);
when the configured duration elapses with no signal (fuel exhausted) the
worker reports `COMPLETED`. -/
theorem polling_loop_priority_order :
    (∀ (endSig abortSig : ℕ → Bool) (flags : ObsFlags) (fuel : ℕ),
      simulate_task_execution_obs endSig abortSig flags fuel =
        (ObsEvent.report TaskStatus.IN_PROGRESS none ::
            (obs_poll_loop endSig abortSig flags 0 fuel).1,
          (obs_poll_loop endSig abortSig flags 0 fuel).2)) ∧
    (∀ (endSig abortSig : ℕ → Bool) (flags : ObsFlags) (k : ℕ),
      obs_poll_loop endSig abortSig flags k 0 =
        ([ObsEvent.report TaskStatus.COMPLETED none], flags)) ∧
    (∀ (endSig abortSig : ℕ → Bool) (flags : ObsFlags) (k fuel : ℕ),
      endSig k = true →
        obs_poll_loop endSig abortSig flags k (fuel + 1) =
          ([ObsEvent.report TaskStatus.COMPLETED none], flags)) ∧
    (∀ (endSig abortSig : ℕ → Bool) (flags : ObsFlags) (k fuel : ℕ),
      endSig k = false → abortSig k = true →
        obs_poll_loop endSig abortSig flags k (fuel + 1) =
          ([ObsEvent.report TaskStatus.ABORTED none,
              ObsEvent.obsStateSet ObsState.ABORTED], flags)) ∧
    (∀ (endSig abortSig : ℕ → Bool) (flags : ObsFlags) (k fuel : ℕ),
      endSig k = false → abortSig k = false →
        (flags.obs_faulty || flags.faulty_in_command) = true →
          obs_poll_loop endSig abortSig flags k (fuel + 1) =
            ([ObsEvent.report TaskStatus.COMPLETED (some ResultCode.FAILED)],
              if flags.faulty_in_command then
                { flags with faulty_in_command := false }
              else flags)) ∧
    (∀ (endSig abortSig : ℕ → Bool) (flags : ObsFlags) (k fuel : ℕ),
      endSig k = false → abortSig k = false →
        (flags.obs_faulty || flags.faulty_in_command) = false →
          obs_poll_loop endSig abortSig flags k (fuel + 1) =
            obs_poll_loop endSig abortSig flags (k + 1) fuel) := by
  refine ⟨?_, ?_, ?_, ?_, ?_, ?_⟩
  · intro endSig abortSig flags fuel
    rfl
  · intro endSig abortSig flags k
    rfl
  · intro endSig abortSig flags k fuel hend
    simp [obs_poll_loop, hend]
  · intro endSig abortSig flags k fuel hend habort
    simp [obs_poll_loop, hend, habort]
  · intro endSig abortSig flags k fuel hend habort hfault
    simp [obs_poll_loop, hend, habort, hfault]
  · intro endSig abortSig flags k fuel hend habort hfault
    simp [obs_poll_loop, hend, habort, hfault]

/-- Witness for C6 at concrete signals, flags and fuel. -/
theorem polling_loop_priority_order_witness :
    (simulate_task_execution_obs (fun _ => false) (fun _ => false)
        ⟨false, false⟩ 2 =
      (ObsEvent.report TaskStatus.IN_PROGRESS none ::
          (obs_poll_loop (fun _ => false) (fun _ => false) ⟨false, false⟩ 0 2).1,
        (obs_poll_loop (fun _ => false) (fun _ => false) ⟨false, false⟩ 0 2).2)) ∧
    (obs_poll_loop (fun _ => false) (fun _ => false) ⟨false, false⟩ 5 0 =
      ([ObsEvent.report TaskStatus.COMPLETED none], ⟨false, false⟩)) ∧
    (obs_poll_loop (fun _ => true) (fun _ => true) ⟨false, false⟩ 0 3 =
      ([ObsEvent.report TaskStatus.COMPLETED none], ⟨false, false⟩)) ∧
    (obs_poll_loop (fun _ => false) (fun _ => true) ⟨false, false⟩ 0 3 =
      ([ObsEvent.report TaskStatus.ABORTED none,
          ObsEvent.obsStateSet ObsState.ABORTED], ⟨false, false⟩)) ∧
    (obs_poll_loop (fun _ => false) (fun _ => false) ⟨true, true⟩ 0 3 =
      ([ObsEvent.report TaskStatus.COMPLETED (some ResultCode.FAILED)],
        if (⟨true, true⟩ : ObsFlags).faulty_in_command then
          { (⟨true, true⟩ : ObsFlags) with faulty_in_command := false }
        else ⟨true, true⟩)) ∧
    (obs_poll_loop (fun _ => false) (fun _ => false) ⟨false, false⟩ 0 3 =
      obs_poll_loop (fun _ => false) (fun _ => false) ⟨false, false⟩ 1 2) :=
  ⟨polling_loop_priority_order.1 (fun _ => false) (fun _ => false) ⟨false, false⟩ 2,
    polling_loop_priority_order.2.1 (fun _ => false) (fun _ => false) ⟨false, false⟩ 5,
    polling_loop_priority_order.2.2.1 (fun _ => true) (fun _ => true)
      ⟨false, false⟩ 0 2 rfl,
    polling_loop_priority_order.2.2.2.1 (fun _ => false) (fun _ => true)
      ⟨false, false⟩ 0 2 rfl rfl,
    polling_loop_priority_order.2.2.2.2.1 (fun _ => false) (fun _ => false)
      ⟨true, true⟩ 0 2 rfl rfl rfl,
    polling_loop_priority_order.2.2.2.2.2 (fun _ => false) (fun _ => false)
      ⟨false, false⟩ 0 2 rfl rfl rfl⟩




theorem exception_phase_shape {ε η : Type} (cbs : Callbacks ε η) (cid : String)
    (exc : Option String) (acc acc2 : TrackerState η × List (TrackerEvent η))
    (h : exception_phase cbs cid exc acc = Except.ok acc2) :
    acc2.1.commands = acc.1.commands ∧
    acc2.1.removal_time = acc.1.removal_time ∧
    ∃ evs, acc2.2 = acc.2 ++ evs ∧
      ∀ ev ∈ evs, eventKind ev = EventKind.exceptionK := by
  rcases exc with _ | e
  · simp only [exception_phase] at h
    cases h
    exact ⟨rfl, rfl, ⟨[], by simp, by simp⟩⟩
  · simp only [exception_phase] at h
    split at h
    · simp only [Except.ok.injEq] at h
      subst h
      exact ⟨rfl, rfl, ⟨[], by simp, by simp⟩⟩
    · split at h
      · simp only [Except.ok.injEq] at h
        subst h
        exact ⟨rfl, rfl, ⟨[TrackerEvent.exceptionCb cid e], by simp, by simp [eventKind]⟩⟩
      · exact absurd h (by simp)

theorem result_phase_shape {ε η : Type} (cbs : Callbacks ε η) (cid : String)
    (res : Option (ResultCode × String))
    (acc acc2 : TrackerState η × List (TrackerEvent η))
    (h : result_phase cbs cid res acc = Except.ok acc2) :
    acc2.1.commands = acc.1.commands ∧
    acc2.1.removal_time = acc.1.removal_time ∧
    ∃ evs, acc2.2 = acc.2 ++ evs ∧
      ∀ ev ∈ evs, eventKind ev = EventKind.resultK := by
  rcases res with _ | r
  · simp only [result_phase] at h
    cases h
    exact ⟨rfl, rfl, ⟨[], by simp, by simp⟩⟩
  · simp only [result_phase] at h
    split at h
    · simp only [Except.ok.injEq] at h
      subst h
      exact ⟨rfl, rfl, ⟨[TrackerEvent.resultCb cid r], by simp, by simp [eventKind]⟩⟩
    · exact absurd h (by simp)


theorem progress_phase_shape {ε η : Type} (cbs : Callbacks ε η) (cid : String)
    (prog : Option Int) (acc acc2 : TrackerState η × List (TrackerEvent η))
    (h : progress_phase cbs cid prog acc = Except.ok acc2) :
    acc2.1.removal_time = acc.1.removal_time ∧
    ∃ evs, acc2.2 = acc.2 ++ evs ∧
      ∀ ev ∈ evs, eventKind ev = EventKind.progressK := by
  rcases prog with _ | p
  · simp only [progress_phase] at h
    cases h
    exact ⟨rfl, ⟨[], by simp, by simp⟩⟩
  · simp only [progress_phase] at h
    split at h
    · exact absurd h (by simp)
    · split at h
      · simp only [Except.ok.injEq] at h
        subst h
        refine ⟨rfl, _, rfl, ?_⟩
        simp [eventKind]
      · exact absurd h (by simp)

theorem status_phase_shape {ε η : Type} (cbs : Callbacks ε η) (cid : String)
    (status : Option TaskStatus)
    (acc acc2 : TrackerState η × List (TrackerEvent η))
    (h : status_phase cbs cid status acc = Except.ok acc2) :
    ∃ evs, acc2.2 = acc.2 ++ evs ∧
      (∀ i hk, TrackerEvent.completedHook i hk ∈ evs →
        status = some TaskStatus.COMPLETED) ∧
      (∀ s, status = some s → s ∈ terminalStatuses →
        TrackerEvent.scheduleRemoval cid acc.1.removal_time ∈ evs) := by
  rcases status with _ | s
  · simp only [status_phase] at h
    cases h
    exact ⟨[], by simp, by simp, by simp⟩
  · simp only [status_phase] at h
    split at h
    · exact absurd h (by simp [Except.bind])
    · split at h
      · exact absurd h (by simp [Except.bind])
      · simp only [dictGet_dictSet_self] at h
        by_cases hC : s = TaskStatus.COMPLETED
        · subst hC
          rw [if_pos rfl] at h
          split at h
          · -- no completion hook stored
            simp only [Except.bind] at h
            rw [if_pos (by decide : TaskStatus.COMPLETED ∈ terminalStatuses)] at h
            simp only [Except.ok.injEq] at h
            subst h
            refine ⟨_, by rw [List.append_assoc], ?_, ?_⟩
            · simp
            · intro s2 hs2 hterm
              simp
          · -- hook present
            split at h
            · simp only [Except.bind] at h
              rw [if_pos (by decide : TaskStatus.COMPLETED ∈ terminalStatuses)] at h
              simp only [Except.ok.injEq] at h
              subst h
              refine ⟨_, by rw [List.append_assoc, List.append_assoc], ?_, ?_⟩
              · simp
              · intro s2 hs2 hterm
                simp
            · exact absurd h (by simp [Except.bind])
        · rw [if_neg hC] at h
          simp only [Except.bind] at h
          by_cases hT : s ∈ terminalStatuses
          · rw [if_pos hT] at h
            simp only [Except.ok.injEq] at h
            subst h
            refine ⟨_, by rw [List.append_assoc], ?_, ?_⟩
            · intro i hk hm
              simp only [List.mem_append, List.mem_singleton] at hm
              rcases hm with hm | hm <;> simp_all
            · intro s2 hs2 hterm
              simp
          · rw [if_neg hT] at h
            simp only [Except.ok.injEq] at h
            subst h
            refine ⟨_, rfl, ?_, ?_⟩
            · intro i hk hm
              simp_all
            · intro s2 hs2 hterm
              cases hs2
              exact absurd hterm hT

theorem not_mem_queue_of_dictGet_none {η : Type} (st : TrackerState η)
    (cid nm : String) (h : dictGet st.commands cid = none) :
    (cid, nm) ∉ commands_in_queue st := by
  intro hm
  rw [dictGet_eq_none_iff] at h
  apply h
  simp only [commands_in_queue, List.mem_map] at hm
  obtain ⟨p, hp, he⟩ := hm
  have h1 : p.1 = cid := congrArg Prod.fst he
  exact List.mem_map.mpr ⟨p, hp, h1⟩

/-- C8: `get_command_status` immediately after `new_command` yields `STAGING`;
a terminal-status update schedules removal of the record `removal_time` after
the update; and once the removal timer body has run, the id is absent from
the `commands_in_queue` snapshot and `get_command_status` returns the
`NOT_FOUND` sentinel (it is total, hence never raises). -/
theorem tracker_roundtrip_staging_and_removal :
    (∀ (ε η : Type) (cbs : Callbacks ε η) (st0 : TrackerState η)
        (cid name : String) (hook : Option η)
        (st1 : TrackerState η) (tr : List (TrackerEvent η)),
      new_command cbs st0 cid name hook = Except.ok (st1, tr) →
        get_command_status st1 cid = TaskStatus.STAGING) ∧
    (∀ (ε η : Type) (cbs : Callbacks ε η) (st0 : TrackerState η) (cid : String)
        (s : TaskStatus) (progress : Option Int)
        (result : Option (ResultCode × String)) (exception : Option String)
        (st1 : TrackerState η) (tr : List (TrackerEvent η)),
      update_command_info cbs st0 cid (some s) progress result exception =
          Except.ok (st1, tr) →
        s ∈ terminalStatuses →
          TrackerEvent.scheduleRemoval cid st0.removal_time ∈ tr) ∧
    (∀ (ε η : Type) (cbs : Callbacks ε η) (st0 : TrackerState η) (cid : String)
        (st1 : TrackerState η) (tr : List (TrackerEvent η)),
      (st0.commands.map Prod.fst).Nodup →
      remove_command cbs st0 cid = Except.ok (st1, tr) →
        (∀ nm, (cid, nm) ∉ commands_in_queue st1) ∧
        get_command_status st1 cid = TaskStatus.NOT_FOUND) := by
  refine ⟨?_, ?_, ?_⟩
  · intro ε η cbs st0 cid name hook st1 tr h
    simp only [new_command] at h
    split at h
    · simp only [Except.ok.injEq, Prod.mk.injEq] at h
      obtain ⟨h1, h2⟩ := h
      subst h1
      simp [get_command_status, dictGet_dictSet_self]
    · exact absurd h (by simp)
  · intro ε η cbs st0 cid s progress result exception st1 tr h hterm
    unfold update_command_info at h
    cases he : exception_phase cbs cid exception (st0, []) with
    | error e1 => simp [he, Except.bind] at h
    | ok acc1 =>
      simp only [he, Except.bind] at h
      cases hr : result_phase cbs cid result acc1 with
      | error e2 => simp [hr] at h
      | ok acc2 =>
        simp only [hr] at h
        cases hp : progress_phase cbs cid progress acc2 with
        | error e3 => simp [hp] at h
        | ok acc3 =>
          simp only [hp] at h
          obtain ⟨evs, htr, _, hrem⟩ := status_phase_shape cbs cid (some s) acc3 (st1, tr) h
          have hrt1 := (exception_phase_shape cbs cid exception (st0, []) acc1 he).2.1
          have hrt2 := (result_phase_shape cbs cid result acc1 acc2 hr).2.1
          have hrt3 := (progress_phase_shape cbs cid progress acc2 acc3 hp).1
          have hrt : acc3.1.removal_time = st0.removal_time := by
            rw [hrt3, hrt2, hrt1]
          have hm := hrem s rfl hterm
          rw [hrt] at hm
          have hin : TrackerEvent.scheduleRemoval cid st0.removal_time ∈ acc3.2 ++ evs :=
            List.mem_append.mpr (Or.inr hm)
          have htr2 : tr = acc3.2 ++ evs := htr
          rw [htr2]
          exact hin
  · intro ε η cbs st0 cid st1 tr hnd h
    unfold remove_command at h
    split at h
    · exact absurd h (by simp)
    · simp only [] at h
      split at h
      · simp only [Except.ok.injEq, Prod.mk.injEq] at h
        obtain ⟨h1, h2⟩ := h
        subst h1
        have hdel : dictGet (dictDel st0.commands cid) cid = none :=
          dictGet_dictDel_self st0.commands cid hnd
        constructor
        · intro nm
          exact not_mem_queue_of_dictGet_none _ cid nm hdel
        · simp [get_command_status, hdel]
      · exact absurd h (by simp)

/-- Witness for C8 on a concrete tracker: register `"cmd1"`, observe
`STAGING`; update it to `COMPLETED` and observe the scheduled removal; run
the removal body and observe `NOT_FOUND` and absence from the queue. -/
theorem tracker_roundtrip_staging_and_removal_witness :
    (∀ (st1 : TrackerState Unit) (tr : List (TrackerEvent Unit)),
      new_command pureCbs (initTracker Unit) "cmd1" "scan" none =
          Except.ok (st1, tr) →
        get_command_status st1 "cmd1" = TaskStatus.STAGING) ∧
    (∀ (st1 : TrackerState Unit) (tr : List (TrackerEvent Unit)),
      update_command_info pureCbs oneCmdTracker "cmd1"
          (some TaskStatus.COMPLETED) none none none = Except.ok (st1, tr) →
        TrackerEvent.scheduleRemoval "cmd1" oneCmdTracker.removal_time ∈ tr) ∧
    (∀ (st1 : TrackerState Unit) (tr : List (TrackerEvent Unit)),
      remove_command pureCbs oneCmdTracker "cmd1" = Except.ok (st1, tr) →
        (∀ nm, ("cmd1", nm) ∉ commands_in_queue st1) ∧
        get_command_status st1 "cmd1" = TaskStatus.NOT_FOUND) :=
  ⟨fun st1 tr h =>
    tracker_roundtrip_staging_and_removal.1 Unit Unit pureCbs (initTracker Unit)
      "cmd1" "scan" none st1 tr h,
  fun st1 tr h =>
    tracker_roundtrip_staging_and_removal.2.1 Unit Unit pureCbs oneCmdTracker
      "cmd1" TaskStatus.COMPLETED none none none st1 tr h (by decide),
  fun st1 tr h =>
    tracker_roundtrip_staging_and_removal.2.2 Unit Unit pureCbs oneCmdTracker
      "cmd1" st1 tr (by decide) h⟩

theorem exception_phase_ok_of_success {ε η : Type} (cbs : Callbacks ε η)
    (cid : String) (exc : Option String)
    (acc : TrackerState η × List (TrackerEvent η))
    (hcb : ∀ cb, cbs.exception = some cb → ∀ i e, cb i e = Except.ok ()) :
    ∃ acc2, exception_phase cbs cid exc acc = Except.ok acc2 ∧
      acc2.1.commands = acc.1.commands := by
  rcases exc with _ | e
  · exact ⟨acc, rfl, rfl⟩
  · rcases hx : cbs.exception with _ | cb
    · simp only [exception_phase, hx]
      exact ⟨_, rfl, rfl⟩
    · simp only [exception_phase, hx, hcb cb hx cid e]
      exact ⟨_, rfl, rfl⟩

theorem result_phase_ok_of_success {ε η : Type} (cbs : Callbacks ε η)
    (cid : String) (res : Option (ResultCode × String))
    (acc : TrackerState η × List (TrackerEvent η))
    (hres : ∀ i r, cbs.result i r = Except.ok ()) :
    ∃ acc2, result_phase cbs cid res acc = Except.ok acc2 ∧
      acc2.1.commands = acc.1.commands := by
  rcases res with _ | r
  · exact ⟨acc, rfl, rfl⟩
  · simp only [result_phase, hres cid r]
    exact ⟨_, rfl, rfl⟩

/-- C9 counterexample: calling `update_command_info` on an unknown id with
only a `result` provided does not raise a lookup error; it succeeds, storing
the most-recent result, refuting the claim for that combination of provided
fields. -/
theorem unknown_id_update_silent_result_refuted :
    update_command_info pureCbs (initTracker Unit) "ghost" none none
        (some (ResultCode.OK, "done")) none =
      Except.ok
        ({ initTracker Unit with
            most_recent_result := some ("ghost", (ResultCode.OK, "done")) },
          [TrackerEvent.resultCb "ghost" (ResultCode.OK, "done")]) := rfl

/-- C9 (amended): updating an unknown id fails loudly with the `KeyError` of
the out-of-bounds dict access whenever `progress` or `status` is provided
(regardless of the other fields, assuming the earlier subscriber callbacks do
not themselves raise); a call providing neither `progress` nor `status` never
touches the per-command map and succeeds, updating only the most-recent
result/exception slots. -/
theorem unknown_id_update_partial_loudness :
    (∀ (ε η : Type) (cbs : Callbacks ε η) (st0 : TrackerState η) (cid : String)
        (status : Option TaskStatus) (progress : Option Int)
        (result : Option (ResultCode × String)) (exception : Option String),
      dictGet st0.commands cid = none →
      (∀ cb, cbs.exception = some cb → ∀ i e, cb i e = Except.ok ()) →
      (∀ i r, cbs.result i r = Except.ok ()) →
      (progress.isSome ∨ status.isSome) →
        update_command_info cbs st0 cid status progress result exception =
          Except.error (TrackerErr.keyError cid)) ∧
    (∀ (ε η : Type) (cbs : Callbacks ε η) (st0 : TrackerState η) (cid : String)
        (result : Option (ResultCode × String)) (exception : Option String),
      (∀ cb, cbs.exception = some cb → ∀ i e, cb i e = Except.ok ()) →
      (∀ i r, cbs.result i r = Except.ok ()) →
        ∃ st1 tr,
          update_command_info cbs st0 cid none none result exception =
            Except.ok (st1, tr) ∧
          st1.commands = st0.commands) := by
  constructor
  · intro ε η cbs st0 cid status progress result exception hget hexc hres hps
    obtain ⟨acc1, he, hc1⟩ :=
      exception_phase_ok_of_success cbs cid exception (st0, []) hexc
    obtain ⟨acc2, hr, hc2⟩ := result_phase_ok_of_success cbs cid result acc1 hres
    have hget2 : dictGet acc2.1.commands cid = none := by
      rw [hc2, hc1]
      exact hget
    unfold update_command_info
    rcases progress with _ | p
    · rcases status with _ | s
      · rcases hps with hps | hps <;> simp at hps
      · simp [he, Except.bind, hr, progress_phase, status_phase, hget2]
    · simp [he, Except.bind, hr, progress_phase, hget2]
  · intro ε η cbs st0 cid result exception hexc hres
    obtain ⟨acc1, he, hc1⟩ :=
      exception_phase_ok_of_success cbs cid exception (st0, []) hexc
    obtain ⟨acc2, hr, hc2⟩ := result_phase_ok_of_success cbs cid result acc1 hres
    refine ⟨acc2.1, acc2.2, ?_, by rw [hc2, hc1]⟩
    unfold update_command_info
    simp [he, Except.bind, hr, progress_phase, status_phase]

/-- Witness for the amended C9: on a fresh tracker, an unknown-id update
providing `progress` raises the lookup error, and an unknown-id update
providing only `result` succeeds leaving the map untouched. -/
theorem unknown_id_update_partial_loudness_witness :
    (update_command_info pureCbs (initTracker Unit) "ghost" none (some 10)
        none none = Except.error (TrackerErr.keyError "ghost")) ∧
    (∃ st1 tr,
      update_command_info pureCbs (initTracker Unit) "ghost" none none
          (some (ResultCode.OK, "done")) none = Except.ok (st1, tr) ∧
      st1.commands = (initTracker Unit).commands) :=
  ⟨unknown_id_update_partial_loudness.1 Unit Unit pureCbs (initTracker Unit)
      "ghost" none (some 10) none none rfl
      (fun cb hcb i e => by cases hcb; rfl) (fun i r => rfl) (Or.inl rfl),
    unknown_id_update_partial_loudness.2 Unit Unit pureCbs (initTracker Unit)
      "ghost" (some (ResultCode.OK, "done")) none
      (fun cb hcb i e => by cases hcb; rfl) (fun i r => rfl)⟩

/-- C1 counterexample: with a registered command and a status subscriber that
raises, `update_command_info` itself raises (returns the callback error)
instead of catching and logging it — the exception does propagate to the
caller, refuting the claim. -/
theorem update_swallows_callback_error_refuted :
    update_command_info raisingStatusCbs oneCmdTracker "cmd1"
        (some TaskStatus.IN_PROGRESS) none none none =
      Except.error (TrackerErr.callbackErr "boom") := rfl

/-- C1 (amended): an exception raised by any subscriber callback
(queue-changed, status-changed, progress-changed, result or exception
callback) or by the record's completion hook during `update_command_info` is
not caught there: it propagates out of `update_command_info` to the caller.
(The catching-and-logging the spec describes happens one level up, in the
devices' `_call_task_callback` wrapper around the whole tracker update.) -/
theorem update_callback_exception_propagates :
    (∀ (ε η : Type) (cbs : Callbacks ε η) (st0 : TrackerState η)
        (cid exc : String) (e : ε) (cb : String → String → Except ε Unit),
      cbs.exception = some cb → cb cid exc = Except.error e →
        update_command_info cbs st0 cid none none none (some exc) =
          Except.error (TrackerErr.callbackErr e)) ∧
    (∀ (ε η : Type) (cbs : Callbacks ε η) (st0 : TrackerState η)
        (cid : String) (r : ResultCode × String) (e : ε),
      cbs.result cid r = Except.error e →
        update_command_info cbs st0 cid none none (some r) none =
          Except.error (TrackerErr.callbackErr e)) ∧
    (∀ (ε η : Type) (cbs : Callbacks ε η) (st0 : TrackerState η)
        (cid : String) (p : Int) (data : CommandData η) (e : ε),
      dictGet st0.commands cid = some data →
      cbs.progress_changed (command_progresses
          { st0 with commands := (dictSet st0.commands cid
            { data with progress := some p }) }) = Except.error e →
        update_command_info cbs st0 cid none (some p) none none =
          Except.error (TrackerErr.callbackErr e)) ∧
    (∀ (ε η : Type) (cbs : Callbacks ε η) (st0 : TrackerState η)
        (cid : String) (s : TaskStatus) (data : CommandData η) (e : ε),
      dictGet st0.commands cid = some data →
      cbs.status_changed (command_statuses
          { st0 with commands := (dictSet st0.commands cid
            { data with status := s }) }) = Except.error e →
        update_command_info cbs st0 cid (some s) none none none =
          Except.error (TrackerErr.callbackErr e)) ∧
    (∀ (ε η : Type) (cbs : Callbacks ε η) (st0 : TrackerState η)
        (cid : String) (data : CommandData η) (hk : η) (e : ε),
      dictGet st0.commands cid = some data →
      data.completed_callback = some hk →
      cbs.status_changed (command_statuses
          { st0 with commands := (dictSet st0.commands cid
            { data with status := TaskStatus.COMPLETED }) }) = Except.ok () →
      cbs.run_completed hk = Except.error e →
        update_command_info cbs st0 cid (some TaskStatus.COMPLETED) none none
            none = Except.error (TrackerErr.callbackErr e)) := by
  refine ⟨?_, ?_, ?_, ?_, ?_⟩
  · intro ε η cbs st0 cid exc e cb hcb hr
    unfold update_command_info
    simp [exception_phase, hcb, hr, Except.bind]
  · intro ε η cbs st0 cid r e hr
    unfold update_command_info
    simp [exception_phase, result_phase, hr, Except.bind]
  · intro ε η cbs st0 cid p data e hget hr
    unfold update_command_info
    simp [exception_phase, result_phase, progress_phase, hget, hr, Except.bind]
  · intro ε η cbs st0 cid s data e hget hr
    unfold update_command_info
    simp [exception_phase, result_phase, progress_phase, status_phase,
      hget, hr, Except.bind]
  · intro ε η cbs st0 cid data hk e hget hdc hst hrun
    unfold update_command_info
    rw [hdc] at hst
    simp [exception_phase, result_phase, progress_phase, status_phase,
      hget, dictGet_dictSet_self, hdc, hst, hrun, Except.bind]

/-- Witness for the amended C1 at concrete raising callbacks: each of the
five exception sources propagates out of `update_command_info`. -/
theorem update_callback_exception_propagates_witness :
    (update_command_info raisingAllCbs oneCmdTracker "cmd1" none none none
        (some "err") = Except.error (TrackerErr.callbackErr "boom")) ∧
    (update_command_info raisingAllCbs oneCmdTracker "cmd1" none none
        (some (ResultCode.OK, "fine")) none =
      Except.error (TrackerErr.callbackErr "boom")) ∧
    (update_command_info raisingAllCbs oneCmdTracker "cmd1" none (some 10)
        none none = Except.error (TrackerErr.callbackErr "boom")) ∧
    (update_command_info raisingAllCbs oneCmdTracker "cmd1"
        (some TaskStatus.IN_PROGRESS) none none none =
      Except.error (TrackerErr.callbackErr "boom")) ∧
    (update_command_info raisingHookCbs oneCmdTracker "cmd1"
        (some TaskStatus.COMPLETED) none none none =
      Except.error (TrackerErr.callbackErr "hookboom")) :=
  ⟨update_callback_exception_propagates.1 String Unit raisingAllCbs
      oneCmdTracker "cmd1" "err" "boom" (fun _ _ => Except.error "boom") rfl rfl,
    update_callback_exception_propagates.2.1 String Unit raisingAllCbs
      oneCmdTracker "cmd1" (ResultCode.OK, "fine") "boom" rfl,
    update_callback_exception_propagates.2.2.1 String Unit raisingAllCbs
      oneCmdTracker "cmd1" 10
      { name := "scan", status := TaskStatus.STAGING, progress := none,
        completed_callback := some () } "boom" rfl rfl,
    update_callback_exception_propagates.2.2.2.1 String Unit raisingAllCbs
      oneCmdTracker "cmd1" TaskStatus.IN_PROGRESS
      { name := "scan", status := TaskStatus.STAGING, progress := none,
        completed_callback := some () } "boom" rfl rfl,
    update_callback_exception_propagates.2.2.2.2 String Unit raisingHookCbs
      oneCmdTracker "cmd1"
      { name := "scan", status := TaskStatus.STAGING, progress := none,
        completed_callback := some () } () "hookboom" rfl rfl rfl rfl⟩

theorem obs_poll_loop_reaches_abort (endSig abortSig : ℕ → Bool)
    (flags : ObsFlags) (hof : flags.obs_faulty = false)
    (hfc : flags.faulty_in_command = false) :
    ∀ (n k fuel : ℕ), n < fuel →
      (∀ j, j < n → endSig (k + j) = false ∧ abortSig (k + j) = false) →
      endSig (k + n) = false → abortSig (k + n) = true →
      obs_poll_loop endSig abortSig flags k fuel =
        ([ObsEvent.report TaskStatus.ABORTED none,
          ObsEvent.obsStateSet ObsState.ABORTED], flags) := by
  intro n
  induction n with
  | zero =>
    intro k fuel hlt hprev hend habort
    obtain ⟨f, rfl⟩ : ∃ f, fuel = f + 1 := ⟨fuel - 1, by omega⟩
    rw [Nat.add_zero] at hend habort
    simp [obs_poll_loop, hend, habort]
  | succ m ih =>
    intro k fuel hlt hprev hend habort
    obtain ⟨f, rfl⟩ : ∃ f, fuel = f + 1 := ⟨fuel - 1, by omega⟩
    have h0 := hprev 0 (Nat.succ_pos m)
    rw [Nat.add_zero] at h0
    have hstep : obs_poll_loop endSig abortSig flags k (f + 1) =
        obs_poll_loop endSig abortSig flags (k + 1) f := by
      simp [obs_poll_loop, h0.1, h0.2, hof, hfc]
    rw [hstep]
    have hend2 : endSig (k + 1 + m) = false := by
      have harith : k + 1 + m = k + (m + 1) := by omega
      rw [harith]
      exact hend
    have habort2 : abortSig (k + 1 + m) = true := by
      have harith : k + 1 + m = k + (m + 1) := by omega
      rw [harith]
      exact habort
    refine ih (k + 1) f (by omega) ?_ hend2 habort2
    intro j hj
    have harith : k + 1 + j = k + (j + 1) := by omega
    rw [harith]
    exact hprev (j + 1) (by omega)

/-- C3: a polling worker that observes the abort signal at iteration `n`
(having seen no earlier signal, with no fault injected) ends its trace with
the `ABORTED` report followed by moving the observation state to `ABORTED` —
no progress or status callback for the command follows; and the tracker
invokes a record's completion hook only when the reported status is
`COMPLETED`, never on `ABORTED`, so the abort suppresses the command's normal
success transition. -/
theorem polling_abort_final_report_and_hook_gating :
    (∀ (endSig abortSig : ℕ → Bool) (flags : ObsFlags) (n fuel : ℕ),
      flags.obs_faulty = false → flags.faulty_in_command = false →
      n < fuel →
      (∀ j, j < n → endSig j = false ∧ abortSig j = false) →
      endSig n = false → abortSig n = true →
        simulate_task_execution_obs endSig abortSig flags fuel =
          ([ObsEvent.report TaskStatus.IN_PROGRESS none,
            ObsEvent.report TaskStatus.ABORTED none,
            ObsEvent.obsStateSet ObsState.ABORTED], flags)) ∧
    (∀ (ε η : Type) (cbs : Callbacks ε η) (st0 : TrackerState η) (cid : String)
        (status : Option TaskStatus) (progress : Option Int)
        (result : Option (ResultCode × String)) (exception : Option String)
        (st1 : TrackerState η) (tr : List (TrackerEvent η)) (i : String) (hk : η),
      update_command_info cbs st0 cid status progress result exception =
          Except.ok (st1, tr) →
      TrackerEvent.completedHook i hk ∈ tr →
        status = some TaskStatus.COMPLETED) := by
  constructor
  · intro endSig abortSig flags n fuel hof hfc hlt hprev hend habort
    unfold simulate_task_execution_obs
    have hloop := obs_poll_loop_reaches_abort endSig abortSig flags hof hfc
      n 0 fuel hlt (by simpa using hprev) (by simpa using hend)
      (by simpa using habort)
    rw [hloop]
  · intro ε η cbs st0 cid status progress result exception st1 tr i hk h hm
    unfold update_command_info at h
    cases he : exception_phase cbs cid exception (st0, []) with
    | error e1 => simp [he, Except.bind] at h
    | ok acc1 =>
      simp only [he, Except.bind] at h
      cases hr : result_phase cbs cid result acc1 with
      | error e2 => simp [hr] at h
      | ok acc2 =>
        simp only [hr] at h
        cases hp : progress_phase cbs cid progress acc2 with
        | error e3 => simp [hp] at h
        | ok acc3 =>
          simp only [hp] at h
          obtain ⟨evs4, htr4, hhook4, _⟩ :=
            status_phase_shape cbs cid status acc3 (st1, tr) h
          obtain ⟨_, _, evs1, htr1, hk1⟩ :=
            exception_phase_shape cbs cid exception (st0, []) acc1 he
          obtain ⟨_, _, evs2, htr2, hk2⟩ :=
            result_phase_shape cbs cid result acc1 acc2 hr
          obtain ⟨_, evs3, htr3, hk3⟩ :=
            progress_phase_shape cbs cid progress acc2 acc3 hp
          have htr : tr = evs1 ++ (evs2 ++ (evs3 ++ evs4)) := by
            have h4 : tr = acc3.2 ++ evs4 := htr4
            rw [h4, htr3, htr2, htr1]
            simp [List.append_assoc]
          rw [htr] at hm
          simp only [List.mem_append] at hm
          rcases hm with hm | hm | hm | hm
          · have hkk := hk1 _ hm
            simp [eventKind] at hkk
          · have hkk := hk2 _ hm
            simp [eventKind] at hkk
          · have hkk := hk3 _ hm
            simp [eventKind] at hkk
          · exact hhook4 i hk hm

/-- Witness for C3: a concrete polling run aborted at iteration 1, and the
hook-gating fact applied to a concrete `COMPLETED` update whose trace does
invoke the hook. -/
theorem polling_abort_final_report_and_hook_gating_witness :
    (simulate_task_execution_obs (fun _ => false) (fun k => decide (1 ≤ k))
        ⟨false, false⟩ 3 =
      ([ObsEvent.report TaskStatus.IN_PROGRESS none,
        ObsEvent.report TaskStatus.ABORTED none,
        ObsEvent.obsStateSet ObsState.ABORTED], ⟨false, false⟩)) ∧
    some TaskStatus.COMPLETED = some TaskStatus.COMPLETED :=
  ⟨polling_abort_final_report_and_hook_gating.1 (fun _ => false)
      (fun k => decide (1 ≤ k)) ⟨false, false⟩ 1 3 rfl rfl (by omega)
      (by decide) rfl rfl,
    polling_abort_final_report_and_hook_gating.2 Unit Unit pureCbs
      oneCmdTracker "cmd1" (some TaskStatus.COMPLETED) none none none
      { commands :=
          [("cmd1",
            { name := "scan", status := TaskStatus.COMPLETED, progress := none,
              completed_callback := some () })]
        most_recent_result := none
        most_recent_exception := none
        removal_time := default_removal_time }
      [TrackerEvent.statusChanged [("cmd1", TaskStatus.COMPLETED)],
        TrackerEvent.completedHook "cmd1" (),
        TrackerEvent.scheduleRemoval "cmd1" default_removal_time]
      "cmd1" () rfl (by simp)⟩

/-- C4: a device command rejected by its legality guard (observation state
outside the command's legal set or device state not `ON`) fails synchronously
with the guard's error, before any asynchronous work: the device model —
tracker included, so no command record is created — and the observation state
are returned unchanged. -/
theorem rejected_command_leaves_state_untouched :
    (∀ (ε : Type) (cbs : Callbacks ε String) (d : DeviceModel) (cid : String),
      ¬(d.obs_state = ObsState.READY ∧ d.dev_state = DevState.ON) →
        Scan_invoke cbs d cid =
          (d, Except.error (DeviceErr.legality
            ⟨"Scan", d.obs_state, d.dev_state⟩))) ∧
    (∀ (ε : Type) (cbs : Callbacks ε String) (d : DeviceModel) (cid : String),
      ¬(d.obs_state ∈ [ObsState.EMPTY, ObsState.IDLE] ∧
          d.dev_state = DevState.ON) →
        AssignResources_invoke cbs d cid =
          (d, Except.error (DeviceErr.legality
            ⟨"AssignResources", d.obs_state, d.dev_state⟩))) := by
  constructor
  · intro ε cbs d cid h
    have hc : d.obs_state ≠ ObsState.READY ∨ d.dev_state ≠ DevState.ON :=
      not_and_or.mp h
    simp only [Scan_invoke, is_Scan_allowed]
    rw [if_pos hc]
  · intro ε cbs d cid h
    have hc : d.obs_state ∉ [ObsState.EMPTY, ObsState.IDLE] ∨
        d.dev_state ≠ DevState.ON := not_and_or.mp h
    simp only [AssignResources_invoke, is_AssignResources_allowed]
    rw [if_pos hc]

/-- Witness for C4: `Scan` in `EMPTY` and `AssignResources` in `READY` are
both rejected with the device model unchanged. -/
theorem rejected_command_leaves_state_untouched_witness :
    (Scan_invoke pureCbsS (sampleDevice ObsState.EMPTY) "id1" =
      (sampleDevice ObsState.EMPTY, Except.error (DeviceErr.legality
        ⟨"Scan", ObsState.EMPTY, DevState.ON⟩))) ∧
    (AssignResources_invoke pureCbsS (sampleDevice ObsState.READY) "id1" =
      (sampleDevice ObsState.READY, Except.error (DeviceErr.legality
        ⟨"AssignResources", ObsState.READY, DevState.ON⟩))) :=
  ⟨rejected_command_leaves_state_untouched.1 Unit pureCbsS
      (sampleDevice ObsState.EMPTY) "id1" (by decide),
    rejected_command_leaves_state_untouched.2 Unit pureCbsS
      (sampleDevice ObsState.READY) "id1" (by decide)⟩

/-- C2: on a registered command id, with all subscribers succeeding, the side
effects of the fields provided to `update_command_info` are applied in the
source's fixed order — exception, then result, then progress, then status —
and a provided terminal status (`COMPLETED`, `ABORTED`, `FAILED`, `REJECTED`)
clears the record's progress and schedules record removal `removal_time`
after the update (`removal_time` defaulting to 10 time units). -/
theorem update_field_order_and_terminal_effects :
    ∀ (ε η : Type) (cbs : Callbacks ε η) (st0 : TrackerState η) (cid : String)
      (data : CommandData η) (excCb : String → String → Except ε Unit)
      (status : Option TaskStatus) (progress : Option Int)
      (result : Option (ResultCode × String)) (exception : Option String),
      dictGet st0.commands cid = some data →
      cbs.exception = some excCb →
      (∀ i e, excCb i e = Except.ok ()) →
      (∀ i r, cbs.result i r = Except.ok ()) →
      (∀ x, cbs.progress_changed x = Except.ok ()) →
      (∀ x, cbs.status_changed x = Except.ok ()) →
      (∀ hk, cbs.run_completed hk = Except.ok ()) →
      ∃ st1 tr,
        update_command_info cbs st0 cid status progress result exception =
          Except.ok (st1, tr) ∧
        tr.map eventKind =
          (match exception with
            | none => [] | some _ => [EventKind.exceptionK]) ++
          (match result with
            | none => [] | some _ => [EventKind.resultK]) ++
          (match progress with
            | none => [] | some _ => [EventKind.progressK]) ++
          (match status with
            | none => []
            | some s =>
              [EventKind.statusK] ++
              (if s = TaskStatus.COMPLETED ∧ data.completed_callback.isSome
                then [EventKind.hookK] else []) ++
              (if s ∈ terminalStatuses then [EventKind.removalK] else [])) ∧
        (∀ s, status = some s → s ∈ terminalStatuses →
          (∃ d2, dictGet st1.commands cid = some d2 ∧ d2.progress = none) ∧
          TrackerEvent.scheduleRemoval cid st0.removal_time ∈ tr) ∧
        (initTracker η).removal_time = 10 := by
  intro ε η cbs st0 cid data excCb status progress result exception
    hget hexc hexcok hres hprog hstat hhook
  rcases hdc : data.completed_callback with _ | hk <;>
    rcases exception with _ | exc <;>
    rcases result with _ | r <;>
    rcases progress with _ | p <;>
    rcases status with _ | s
  all_goals
    simp only [update_command_info, exception_phase, result_phase,
      progress_phase, status_phase, hget, hexc, hexcok, hres, hprog, hstat,
      hhook, dictGet_dictSet_self, hdc, Except.bind, List.nil_append,
      List.append_nil]
  -- branches without a status field
  all_goals try (
    refine ⟨_, _, rfl, by simp [eventKind, terminalStatuses], ?_, rfl⟩
    intro s1 hs1
    exact Option.noConfusion hs1)
  all_goals rcases s with _ | _ | _ | _ | _ | _ | _ | _ | _
  all_goals
    refine ⟨_, _, rfl, by simp [eventKind, terminalStatuses], ?_, rfl⟩
  all_goals intro s1 hs1 hterm
  all_goals cases hs1
  all_goals
    first
    | exact absurd hterm (by decide)
    | exact ⟨⟨_, dictGet_dictSet_self _ _ _, rfl⟩, by simp⟩

/-- Witness for C2: all four fields provided at once on a registered command,
with a terminal `COMPLETED` status. -/
theorem update_field_order_and_terminal_effects_witness :
    ∃ st1 tr,
      update_command_info pureCbs oneCmdTracker "cmd1"
          (some TaskStatus.COMPLETED) (some 50) (some (ResultCode.OK, "fine"))
          (some "err") = Except.ok (st1, tr) ∧
      tr.map eventKind =
        [EventKind.exceptionK] ++ [EventKind.resultK] ++ [EventKind.progressK] ++
          ([EventKind.statusK] ++
            (if TaskStatus.COMPLETED = TaskStatus.COMPLETED ∧
                (some ()).isSome then [EventKind.hookK] else []) ++
            (if TaskStatus.COMPLETED ∈ terminalStatuses then [EventKind.removalK]
              else [])) ∧
      (∀ s, some TaskStatus.COMPLETED = some s → s ∈ terminalStatuses →
        (∃ d2, dictGet st1.commands "cmd1" = some d2 ∧ d2.progress = none) ∧
        TrackerEvent.scheduleRemoval "cmd1" oneCmdTracker.removal_time ∈ tr) ∧
      (initTracker Unit).removal_time = 10 :=
  update_field_order_and_terminal_effects Unit Unit pureCbs oneCmdTracker
    "cmd1"
    { name := "scan", status := TaskStatus.STAGING, progress := none,
      completed_callback := some () } (fun _ _ => Except.ok ())
    (some TaskStatus.COMPLETED) (some 50) (some (ResultCode.OK, "fine"))
    (some "err") rfl rfl (fun _ _ => rfl) (fun _ _ => rfl) (fun _ => rfl)
    (fun _ => rfl) (fun _ => rfl)
